import Mathlib

/-!
Shallow embedding of the deep-research orchestrator (src/deep-research.ts,
given as src/unnamed/part_000), its run wrapper (src/run.ts and
src/unnamed/part_001), as pure Lean functions.  External effects
(the structured-generation inference service, the web-search service,
the filesystem, timers) are modelled as oracle functions gathered in an
`Env` structure; the embedded functions thread them explicitly and return
`Except` values where the TypeScript can throw.
-/

/-- Error taxonomy of the spec: retrieval failures (search service, after
retry exhaustion) and generation failures (inference service). -/
inductive Err where
  | retrieval : String → Err
  | generation : String → Err
deriving DecidableEq, Repr

/-- One SERP query produced by query expansion: `{query, researchGoal}`. -/
structure SerpQuery where
  query : String
  researchGoal : String
deriving DecidableEq, Repr

/-- One item of a Firecrawl search response: `url` and `markdown` are both
optional in the client's response type. -/
structure SearchItem where
  url : Option String
  markdown : Option String
deriving DecidableEq, Repr

/-- A Firecrawl `SearchResponse`: the `data` array of items. -/
structure SearchResponse where
  data : List SearchItem
deriving DecidableEq, Repr

/-- Output of `processSerpResult`: `{learnings, followUpQuestions}`. -/
structure DistillOutput where
  learnings : List String
  followUpQuestions : List String
deriving DecidableEq, Repr

/-- The aggregate returned by every level of `deepResearch`:
`{learnings, visitedUrls, queries}`. -/
structure ResearchResult where
  learnings : List String
  visitedUrls : List String
  queries : List SerpQuery
deriving DecidableEq, Repr

/-- `lodash.compact` on a list of optional strings: JavaScript `compact`
drops all falsy entries, so both missing values and empty strings go. -/
def compactStr (l : List (Option String)) : List String :=
  l.filterMap (fun o =>
    match o with
    | none => none
    | some s => if s = "" then none else some s)

/-- One insertion into a JavaScript `Set` viewed as an ordered list:
keep the accumulator if the element is already present, else append. -/
def insertUnique (acc : List String) (x : String) : List String :=
  if x ∈ acc then acc else acc ++ [x]

/-- `[...new Set(l)]`: deduplicate keeping first occurrences in order. -/
def jsSetDedup (l : List String) : List String :=
  l.foldl insertUnique []

/-- Oracles for the two external services used by the core
(inference service and search service), one field per call shape. -/
structure Env where
  /-- `generateSerpQueries`: inference call keyed by query, numQueries
  and prior learnings; returns the raw (unsliced) query list. -/
  genQueries : String → Nat → List String → Except Err (List SerpQuery)
  /-- `firecrawlSearchWithRetry` as seen by a branch of `deepResearch`:
  either a search response or the error it rethrows after retries. -/
  search : String → Except Err SearchResponse
  /-- `processSerpResult`: inference call keyed by the query, the search
  response and `numFollowUpQuestions`. -/
  distill : String → SearchResponse → Nat → Except Err DistillOutput
  /-- `writeFinalReport`'s initial draft call, keyed by prompt and the
  `learningsString`. -/
  draftReport : String → String → Except Err String
  /-- `refineReport` step 1: criticism of a report. -/
  genCriticism : String → Except Err String
  /-- `refineReport` step 2: raw follow-up question list for a criticism. -/
  genQuestions : String → Except Err (List String)
  /-- `refineReport` step 4: revised report from report plus learnings. -/
  reviseReport : String → List String → Except Err String

/-- `Math.ceil(breadth / 2)` on natural numbers. -/
def newBreadth (breadth : Nat) : Nat :=
  (breadth + 1) / 2

/-- `depth - 1` (the budgets are natural numbers; the recursion guard
`newDepth > 0` makes truncation at zero indistinguishable from JS). -/
def newDepth (depth : Nat) : Nat :=
  depth - 1

/-- The follow-up query string built for a recursive call:
previous research goal plus the distilled follow-up directions, trimmed. -/
def nextQuery (serpQuery : SerpQuery) (newLearnings : DistillOutput) : String :=
  ("\n            Previous research goal: " ++ serpQuery.researchGoal ++
    "\n            Follow-up research directions: " ++
    String.join (newLearnings.followUpQuestions.map (fun q => "\n" ++ q)) ++
    "\n          ").trim

/-- The branch-level `catch`: any thrown error becomes the empty partial
result `{learnings: [], visitedUrls: [], queries: []}`. -/
def recover (x : Except Err ResearchResult) : ResearchResult :=
  match x with
  | Except.ok r => r
  | Except.error _ => { learnings := [], visitedUrls := [], queries := [] }

/-- `deepResearch` from src/unnamed/part_000 lines 238-325.  Expansion
errors propagate; each branch runs retrieval, distillation and the
optional recursive call inside a try whose catch yields the empty partial
result; the level merges branch results through `new Set` deduplication
and returns this level's query list. -/
def deepResearch (env : Env) (query : String) (breadth depth : Nat)
    (learnings visitedUrls : List String) : Except Err ResearchResult :=
  match env.genQueries query breadth learnings with
  | Except.error e => Except.error e
  | Except.ok rawQueries =>
    let serpQueries := rawQueries.take breadth
    let results := serpQueries.map (fun serpQuery =>
      recover (
        match env.search serpQuery.query with
        | Except.error e => Except.error e
        | Except.ok result =>
          match env.distill serpQuery.query result (newBreadth breadth) with
          | Except.error e => Except.error e
          | Except.ok newLearnings =>
            let allLearnings := learnings ++ newLearnings.learnings
            let allUrls :=
              visitedUrls ++ compactStr (result.data.map (fun item => item.url))
            if h : newDepth depth > 0 then
              deepResearch env (nextQuery serpQuery newLearnings)
                (newBreadth breadth) (newDepth depth) allLearnings allUrls
            else
              Except.ok { learnings := allLearnings, visitedUrls := allUrls,
                          queries := serpQueries }))
    Except.ok
      { learnings := jsSetDedup (results.flatMap (fun r => r.learnings)),
        visitedUrls := jsSetDedup (results.flatMap (fun r => r.visitedUrls)),
        queries := serpQueries }
termination_by depth
decreasing_by simp [newDepth] at h ⊢; omega

/-- Modelled from the spec: `trimPrompt` lives in src/ai/providers.ts,
which is not part of the given sources; the spec describes it as keeping
a prefix bounded by a character budget. -/
def trimPrompt (s : String) (budget : Nat) : String :=
  s.take budget

/-- The `## Sources` appendix that `writeFinalReport` appends:
one `- url` line per visited URL, in input order. -/
def urlsSection (visitedUrls : List String) : String :=
  "\n\n## Sources\n\n" ++
    String.intercalate "\n" (visitedUrls.map (fun url => "- " ++ url))

/-- The combined query built by `refineReport` step 3 from the initial
query, the criticism and the follow-up questions. -/
def combinedQuery (initialQuery criticism : String)
    (followUpQuestions : List String) : String :=
  "\nInitial Query: " ++ initialQuery ++
    "\nCriticism: " ++ criticism ++
    "\nFollow-up Questions:\n" ++
    String.intercalate "\n" (followUpQuestions.map (fun q => "Q: " ++ q)) ++
    "\n"

/-- `refineReport` from src/unnamed/part_000 lines 327-408: criticise,
derive follow-up questions, run `deepResearch` on the combined query,
then revise the report from the learnings.  The orchestrator's
`visitedUrls` are only logged by the source; the `queries` field is never
read.  Inference failures propagate. -/
def refineReport (env : Env) (report initialQuery : String)
    (breadth depth : Nat) : Except Err String :=
  match env.genCriticism report with
  | Except.error e => Except.error e
  | Except.ok criticism =>
    match env.genQuestions criticism with
    | Except.error e => Except.error e
    | Except.ok rawQuestions =>
      let followUpQuestions := rawQuestions.take breadth
      match deepResearch env
          (combinedQuery initialQuery criticism followUpQuestions)
          breadth depth [] [] with
      | Except.error e => Except.error e
      | Except.ok res =>
        env.reviseReport report res.learnings

/-- The refinement `for` loop of `writeFinalReport` (lines 163-172):
run `refineReport` `refinementIterates` times, feeding each output
back in as the next input, with the fixed budget breadth 3, depth 2. -/
def refineLoop (env : Env) (prompt : String) :
    Nat → String → Except Err String
  | 0, report => Except.ok report
  | n + 1, report =>
    match refineReport env report prompt 3 2 with
    | Except.error e => Except.error e
    | Except.ok refined => refineLoop env prompt n refined

/-- `writeFinalReport` from src/unnamed/part_000 lines 133-177: draft a
report from the learnings, run the refinement loop, then return the
report text with the Sources appendix.  The source returns this single
string; no trail of intermediate reports is built or returned. -/
def writeFinalReport (env : Env) (prompt : String)
    (learnings visitedUrls : List String) (refinementIterates : Nat) :
    Except Err String :=
  let learningsString := trimPrompt
    (String.intercalate "\n"
      (learnings.map (fun learning => "<learning>\n" ++ learning ++ "\n</learning>")))
    150000
  match env.draftReport prompt learningsString with
  | Except.error e => Except.error e
  | Except.ok draft =>
    match refineLoop env prompt refinementIterates draft with
    | Except.error e => Except.error e
    | Except.ok finalDraft => Except.ok (finalDraft ++ urlsSection visitedUrls)

/-- A wait performed by `firecrawlSearchWithRetry`: the fixed
`INITIAL_BACKOFF` sleep before each attempt (line 210), or the doubling
backoff sleep between a failed attempt and its retry (line 227). -/
inductive Delay where
  | preAttempt : Nat → Delay
  | retryBackoff : Nat → Delay
deriving DecidableEq, Repr

/-- The backoff waits of a delay trace, in order. -/
def backoffDelays (trace : List Delay) : List Nat :=
  trace.filterMap (fun d =>
    match d with
    | Delay.retryBackoff n => some n
    | Delay.preAttempt _ => none)

def MAX_RETRIES : Nat := 5

def INITIAL_BACKOFF : Nat := 5000

/-- The `while` loop of `firecrawlSearchWithRetry` (lines 208-233),
with the outcome of attempt number `n` supplied by the oracle
`attemptR n` and every `setTimeout` wait recorded in a trace. -/
def retryLoop (attemptR : Nat → Except String SearchResponse)
    (retries attempt backoff : Nat) (delays : List Delay) :
    List Delay × Except String SearchResponse :=
  if attempt < retries then
    let delays := delays ++ [Delay.preAttempt INITIAL_BACKOFF]
    match attemptR attempt with
    | Except.ok r => (delays, Except.ok r)
    | Except.error e =>
      if h : attempt + 1 < retries then
        retryLoop attemptR retries (attempt + 1) (backoff * 2)
          (delays ++ [Delay.retryBackoff backoff])
      else
        (delays, Except.error e)
  else
    (delays, Except.error "unreachable: loop exhausted without throwing")
termination_by retries - attempt
decreasing_by omega

/-- `firecrawlSearchWithRetry` (lines 201-236) over an attempt oracle:
starts at attempt 0 with the initial backoff and an empty delay trace. -/
def firecrawlSearchWithRetry (attemptR : Nat → Except String SearchResponse)
    (retries : Nat := MAX_RETRIES) : List Delay × Except String SearchResponse :=
  retryLoop attemptR retries 0 INITIAL_BACKOFF []

/-- Outcome of the report-saving tail of `run` (src/src/run.ts lines
111-129): either the file name and content written, or a fatal exit
carrying the text logged to standard output and the exit code. -/
inductive SaveOutcome where
  | written : String → String → SaveOutcome
  | fatalExit : String → Nat → SaveOutcome
deriving DecidableEq, Repr

/-- The collision-avoidance `while` loop of `run`: `ex` is the
`fsSync.existsSync` oracle, `i` the suffix counter starting at 1.
Returns the chosen file name, or an error when the counter passes 100. -/
def collisionLoop (ex : String → Bool) (originalFileName fileName : String)
    (i : Nat) : Except Unit String :=
  if ex ("output/" ++ fileName ++ ".md") then
    let fileName := originalFileName ++ "-" ++ toString i
    let i := i + 1
    if h : i > 100 then
      Except.error ()
    else
      collisionLoop ex originalFileName fileName i
  else
    Except.ok fileName
termination_by 101 - i
decreasing_by omega

/-- The saving tail of `run`: pick a file name by the collision loop;
on success write `report + metadata` to `output/<name>.md`, on collision
exhaustion log `report + metadata` and exit with code 1. -/
def saveReport (ex : String → Bool) (fileName report metadata : String) :
    SaveOutcome :=
  match collisionLoop ex fileName fileName 1 with
  | Except.ok chosen => SaveOutcome.written chosen (report ++ metadata)
  | Except.error _ => SaveOutcome.fatalExit (report ++ metadata) 1

/-- The branch unit of work of `deepResearch` (the body of the lambda
mapped over `serpQueries`), as a named function of the level's
parameters: retrieval, then distillation, then the optional recursive
call, all inside the branch-level catch. -/
def deepBranch (env : Env) (breadth depth : Nat)
    (learnings visitedUrls : List String) (serpQueries : List SerpQuery)
    (serpQuery : SerpQuery) : ResearchResult :=
  recover (
    match env.search serpQuery.query with
    | Except.error e => Except.error e
    | Except.ok result =>
      match env.distill serpQuery.query result (newBreadth breadth) with
      | Except.error e => Except.error e
      | Except.ok newLearnings =>
        let allLearnings := learnings ++ newLearnings.learnings
        let allUrls :=
          visitedUrls ++ compactStr (result.data.map (fun item => item.url))
        if h : newDepth depth > 0 then
          deepResearch env (nextQuery serpQuery newLearnings)
            (newBreadth breadth) (newDepth depth) allLearnings allUrls
        else
          Except.ok { learnings := allLearnings, visitedUrls := allUrls,
                      queries := serpQueries })

/-- Environment in which retrieval always fails. -/
def envA : Env where
  genQueries := fun _ _ _ => Except.ok [⟨"s1", "g1"⟩]
  search := fun _ => Except.error (Err.retrieval "down")
  distill := fun _ _ _ => Except.error (Err.generation "unused")
  draftReport := fun _ _ => Except.ok "D"
  genCriticism := fun _ => Except.ok "C"
  genQuestions := fun _ => Except.ok []
  reviseReport := fun _ _ => Except.ok "R"

/-- Environment in which one sub-query is produced and every step
succeeds. -/
def envB : Env where
  genQueries := fun _ _ _ => Except.ok [⟨"sq", "goal"⟩]
  search := fun _ => Except.ok ⟨[⟨some "u1", some "m"⟩]⟩
  distill := fun _ _ _ => Except.ok ⟨["L1"], ["F1"]⟩
  draftReport := fun _ _ => Except.ok "D"
  genCriticism := fun _ => Except.ok "C"
  genQuestions := fun _ => Except.ok []
  reviseReport := fun _ _ => Except.ok "R"

/-- Environment in which retrieval succeeds but distillation raises a
generation error. -/
def envC2 : Env where
  genQueries := fun _ _ _ => Except.ok [⟨"sq", "g"⟩]
  search := fun _ => Except.ok ⟨[⟨some "u", some "m"⟩]⟩
  distill := fun _ _ _ => Except.error (Err.generation "boom")
  draftReport := fun _ _ => Except.ok "D"
  genCriticism := fun _ => Except.ok "C"
  genQuestions := fun _ => Except.ok []
  reviseReport := fun _ _ => Except.ok "R"

/-- Environment for the refinement counterexample: the single search
result carries URL1. -/
def envD1 : Env where
  genQueries := fun _ _ _ => Except.ok [⟨"sq", "g"⟩]
  search := fun _ => Except.ok ⟨[⟨some "URL1", some "m"⟩]⟩
  distill := fun _ _ _ => Except.ok ⟨["L1"], []⟩
  draftReport := fun _ _ => Except.ok "DRAFT"
  genCriticism := fun _ => Except.ok "CRIT"
  genQuestions := fun _ => Except.ok ["Q1"]
  reviseReport := fun _ ls => Except.ok (String.intercalate "|" ls)

/-- Same as `envD1` except the search result carries URL2. -/
def envD2 : Env where
  genQueries := fun _ _ _ => Except.ok [⟨"sq", "g"⟩]
  search := fun _ => Except.ok ⟨[⟨some "URL2", some "m"⟩]⟩
  distill := fun _ _ _ => Except.ok ⟨["L1"], []⟩
  draftReport := fun _ _ => Except.ok "DRAFT"
  genCriticism := fun _ => Except.ok "CRIT"
  genQuestions := fun _ => Except.ok ["Q1"]
  reviseReport := fun _ ls => Except.ok (String.intercalate "|" ls)

/-- Environment in which query expansion returns no sub-queries and the
report draft is the fixed string DRAFT. -/
def envE : Env where
  genQueries := fun _ _ _ => Except.ok []
  search := fun _ => Except.error (Err.retrieval "down")
  distill := fun _ _ _ => Except.error (Err.generation "no")
  draftReport := fun _ _ => Except.ok "DRAFT"
  genCriticism := fun _ => Except.ok "CRIT"
  genQuestions := fun _ => Except.ok []
  reviseReport := fun _ _ => Except.ok "REV"

/-- Filesystem oracle for the collision-loop witness: exactly
`output/report.md` exists. -/
def exW : String → Bool :=
  fun s => s == "output/report.md"

/-- Attempt oracle for the retry witness: every attempt fails. -/
def failR : Nat → Except String SearchResponse :=
  fun _ => Except.error "boom"

theorem jsSetDedup_aux_nodup (l : List String) (acc : List String)
    (h : acc.Nodup) : (l.foldl insertUnique acc).Nodup := by
  induction l generalizing acc with
  | nil => simpa using h
  | cons x xs ih =>
    simp only [List.foldl_cons]
    apply ih
    unfold insertUnique
    by_cases hx : x ∈ acc
    · simpa [hx] using h
    · simp [hx, List.nodup_append, h]

theorem jsSetDedup_nodup (l : List String) : (jsSetDedup l).Nodup :=
  jsSetDedup_aux_nodup l [] (by simp)

/-- Unfolding of `deepResearch` once query expansion has succeeded:
the level maps `deepBranch` over the sliced query list and merges with
`jsSetDedup`. -/
theorem deepResearch_unfold (env : Env) (query : String)
    (breadth depth : Nat) (learnings visitedUrls : List String)
    (raw : List SerpQuery)
    (hg : env.genQueries query breadth learnings = Except.ok raw) :
    deepResearch env query breadth depth learnings visitedUrls =
      Except.ok
        { learnings := jsSetDedup (((raw.take breadth).map
            (deepBranch env breadth depth learnings visitedUrls
              (raw.take breadth))).flatMap (fun r => r.learnings)),
          visitedUrls := jsSetDedup (((raw.take breadth).map
            (deepBranch env breadth depth learnings visitedUrls
              (raw.take breadth))).flatMap (fun r => r.visitedUrls)),
          queries := raw.take breadth } := by
  rw [deepResearch, hg]
  rfl

/-- Helper: mapping a constant whose image under `g` is empty and then
flat-mapping `g` yields the empty list. -/
theorem flatMap_map_nil {a b c : Type} (L : List a) (g : c -> List b)
    (x : c) (hx : g x = []) : (L.map (fun _ => x)).flatMap g = [] := by
  induction L with
  | nil => rfl
  | cons y ys ih => simp [ih, hx]

/-- Helper: when retrieval fails for every sub-query of the level, every
branch contributes the empty partial result and the level returns
normally with empty learnings and URLs. -/
theorem deepResearch_all_search_fail (env : Env) (query : String)
    (breadth depth : Nat) (learnings visitedUrls : List String)
    (raw : List SerpQuery)
    (hg : env.genQueries query breadth learnings = Except.ok raw)
    (hfail : ∀ sq ∈ raw.take breadth, ∃ e, env.search sq.query = Except.error e) :
    deepResearch env query breadth depth learnings visitedUrls =
      Except.ok { learnings := [], visitedUrls := [],
                  queries := raw.take breadth } := by
  rw [deepResearch_unfold env query breadth depth learnings visitedUrls raw hg]
  have h' : ∀ sq ∈ raw.take breadth,
      deepBranch env breadth depth learnings visitedUrls (raw.take breadth) sq =
        { learnings := [], visitedUrls := [], queries := [] } := by
    intro sq hsq
    obtain ⟨e, he⟩ := hfail sq hsq
    simp [deepBranch, he, recover]
  rw [List.map_congr_left h',
    flatMap_map_nil (raw.take breadth) (fun r => r.learnings)
      ({ learnings := [], visitedUrls := [], queries := [] } : ResearchResult) rfl,
    flatMap_map_nil (raw.take breadth) (fun r => r.visitedUrls)
      ({ learnings := [], visitedUrls := [], queries := [] } : ResearchResult) rfl]
  rfl

/-- C1: at every level, a branch whose retrieval fails is converted into
the empty partial result; the failure never raises out of the level
(once query expansion has succeeded the call always returns `ok`), never
aborts a sibling branch (a failing sibling leaves a succeeding branch's
contribution intact), and if retrieval fails for every sub-query the
level returns normally with empty learnings and visitedUrls. -/
theorem deepResearch_retrieval_failures_contained (env : Env)
    (query : String) (breadth depth : Nat)
    (learnings visitedUrls : List String) (raw : List SerpQuery)
    (hg : env.genQueries query breadth learnings = Except.ok raw) :
    (∃ res, deepResearch env query breadth depth learnings visitedUrls =
      Except.ok res) ∧
    ((∀ sq ∈ raw.take breadth, ∃ e, env.search sq.query = Except.error e) →
      deepResearch env query breadth depth learnings visitedUrls =
        Except.ok { learnings := [], visitedUrls := [],
                    queries := raw.take breadth }) ∧
    (∀ sq1 sq2 resp out,
      raw.take breadth = [sq1, sq2] →
      (∃ e, env.search sq1.query = Except.error e) →
      env.search sq2.query = Except.ok resp →
      env.distill sq2.query resp (newBreadth breadth) = Except.ok out →
      newDepth depth = 0 →
      deepResearch env query breadth depth learnings visitedUrls =
        Except.ok
          { learnings := jsSetDedup (learnings ++ out.learnings),
            visitedUrls := jsSetDedup (visitedUrls ++
              compactStr (resp.data.map (fun item => item.url))),
            queries := [sq1, sq2] }) := by
  refine ⟨⟨_, deepResearch_unfold env query breadth depth learnings
    visitedUrls raw hg⟩,
    deepResearch_all_search_fail env query breadth depth learnings
      visitedUrls raw hg, ?_⟩
  intro sq1 sq2 resp out ht hfail1 hs2 hd2 hdep
  obtain ⟨e, he⟩ := hfail1
  rw [deepResearch_unfold env query breadth depth learnings visitedUrls raw hg,
    ht]
  simp [deepBranch, he, hs2, hd2, hdep, recover]

/-- Witness for C1: in `envA` (one sub-query, retrieval always failing)
the call at breadth 1, depth 0 returns the empty partial result. -/
theorem deepResearch_retrieval_failures_contained_witness :
    deepResearch envA "q" 1 0 [] [] =
      Except.ok { learnings := [], visitedUrls := [],
                  queries := [⟨"s1", "g1"⟩] } :=
  (deepResearch_retrieval_failures_contained envA "q" 1 0 [] []
      [⟨"s1", "g1"⟩] rfl).2.1
    (fun _ _ => ⟨Err.retrieval "down", rfl⟩)

/-- C3: every `ResearchResult` returned by `deepResearch` has no
duplicate entries in `learnings` nor in `visitedUrls`; in particular
every URL in the final `visitedUrls` occurs exactly once. -/
theorem deepResearch_result_nodup (env : Env) (query : String)
    (breadth depth : Nat) (learnings visitedUrls : List String)
    (r : ResearchResult)
    (h : deepResearch env query breadth depth learnings visitedUrls =
      Except.ok r) :
    r.learnings.Nodup ∧ r.visitedUrls.Nodup ∧
      ∀ u ∈ r.visitedUrls, r.visitedUrls.count u = 1 := by
  rw [deepResearch] at h
  cases hg : env.genQueries query breadth learnings with
  | error e => rw [hg] at h; cases h
  | ok raw =>
    rw [hg] at h
    simp only [Except.ok.injEq] at h
    subst h
    exact ⟨jsSetDedup_nodup _, jsSetDedup_nodup _,
      fun u hu => List.count_eq_one_of_mem (jsSetDedup_nodup _) hu⟩

/-- Witness for C3: the result of a one-branch success run in `envB` has
duplicate-free learnings and URLs, each URL counted once. -/
theorem deepResearch_result_nodup_witness :
    (["L1"] : List String).Nodup ∧ (["u1"] : List String).Nodup ∧
      ∀ u ∈ (["u1"] : List String), (["u1"] : List String).count u = 1 :=
  deepResearch_result_nodup envB "q" 1 0 [] []
    { learnings := ["L1"], visitedUrls := ["u1"], queries := [⟨"sq", "goal"⟩] }
    (by simp [deepResearch, envB, newBreadth, newDepth, compactStr,
      jsSetDedup, insertUnique, recover])

/-- C10: a level whose query expansion yields no sub-queries returns the
all-empty result, dropping the carried-in accumulators; likewise a level
where every branch fails returns empty learnings and visitedUrls. -/
theorem deepResearch_empty_level_drops_accumulators (env : Env)
    (query : String) (breadth depth : Nat)
    (learnings visitedUrls : List String) (raw : List SerpQuery)
    (hg : env.genQueries query breadth learnings = Except.ok raw) :
    (raw.take breadth = [] →
      deepResearch env query breadth depth learnings visitedUrls =
        Except.ok { learnings := [], visitedUrls := [], queries := [] }) ∧
    ((∀ sq ∈ raw.take breadth, ∃ e, env.search sq.query = Except.error e) →
      ∀ r, deepResearch env query breadth depth learnings visitedUrls =
          Except.ok r →
        r.learnings = [] ∧ r.visitedUrls = []) := by
  constructor
  · intro ht
    rw [deepResearch_unfold env query breadth depth learnings visitedUrls
      raw hg, ht]
    rfl
  · intro hfail r hr
    rw [deepResearch_all_search_fail env query breadth depth learnings
      visitedUrls raw hg hfail] at hr
    simp only [Except.ok.injEq] at hr
    subst hr
    exact ⟨rfl, rfl⟩

/-- Witness for C10: in `envE` query expansion returns no sub-queries and
the call drops nonempty carried-in accumulators. -/
theorem deepResearch_empty_level_drops_accumulators_witness :
    deepResearch envE "q" 4 3 ["old"] ["visited"] =
      Except.ok { learnings := [], visitedUrls := [], queries := [] } :=
  (deepResearch_empty_level_drops_accumulators envE "q" 4 3 ["old"]
    ["visited"] [] rfl).1 rfl

/-- C4: a successful branch at budget (breadth, depth) derives
`newBreadth = ceil(breadth / 2)` (characterized against doubling) and
`newDepth = depth - 1`; it recurses with exactly that budget when
`newDepth > 0` and stops otherwise; concretely 4,2 steps to 2,1 and then
to 1,0 with no further recursion. -/
theorem deepResearch_budget_derivation (env : Env) (query : String)
    (breadth : Nat) (learnings visitedUrls : List String)
    (raw : List SerpQuery) (sq : SerpQuery) (resp : SearchResponse)
    (out : DistillOutput)
    (hg : env.genQueries query breadth learnings = Except.ok raw)
    (ht : raw.take breadth = [sq])
    (hs : env.search sq.query = Except.ok resp)
    (hd : env.distill sq.query resp (newBreadth breadth) = Except.ok out) :
    (∀ depth, newDepth depth > 0 →
      deepResearch env query breadth depth learnings visitedUrls =
        Except.ok
          { learnings := jsSetDedup (recover (deepResearch env
              (nextQuery sq out) (newBreadth breadth) (newDepth depth)
              (learnings ++ out.learnings)
              (visitedUrls ++ compactStr
                (resp.data.map (fun item => item.url))))).learnings,
            visitedUrls := jsSetDedup (recover (deepResearch env
              (nextQuery sq out) (newBreadth breadth) (newDepth depth)
              (learnings ++ out.learnings)
              (visitedUrls ++ compactStr
                (resp.data.map (fun item => item.url))))).visitedUrls,
            queries := [sq] }) ∧
    (∀ depth, newDepth depth = 0 →
      deepResearch env query breadth depth learnings visitedUrls =
        Except.ok
          { learnings := jsSetDedup (learnings ++ out.learnings),
            visitedUrls := jsSetDedup (visitedUrls ++
              compactStr (resp.data.map (fun item => item.url))),
            queries := [sq] }) ∧
    (∀ serpQueries depth, newDepth depth > 0 →
      deepBranch env breadth depth learnings visitedUrls serpQueries sq =
        recover (deepResearch env (nextQuery sq out) (newBreadth breadth)
          (newDepth depth) (learnings ++ out.learnings)
          (visitedUrls ++ compactStr
            (resp.data.map (fun item => item.url))))) ∧
    (∀ b, b ≤ 2 * newBreadth b ∧ 2 * newBreadth b ≤ b + 1) ∧
    (newBreadth 4 = 2 ∧ newDepth 2 = 1 ∧ newBreadth 2 = 1 ∧ newDepth 1 = 0) := by
  refine ⟨?_, ?_, ?_, ?_, by decide⟩
  · intro depth hdep
    rw [deepResearch_unfold env query breadth depth learnings visitedUrls
      raw hg, ht]
    simp only [List.map_cons, List.map_nil, List.flatMap_cons,
      List.flatMap_nil, List.append_nil, deepBranch, hs, hd, dif_pos hdep]
  · intro depth hdep
    rw [deepResearch_unfold env query breadth depth learnings visitedUrls
      raw hg, ht]
    simp [deepBranch, hs, hd, hdep, recover]
  · intro serpQueries depth hdep
    simp [deepBranch, hs, hd, dif_pos hdep]
  · intro b
    unfold newBreadth
    omega

/-- Witness for C4: in `envB` at breadth 2, depth 1 the derived depth is
0 and the branch does not recurse, returning the merged leaf result. -/
theorem deepResearch_budget_derivation_witness :
    deepResearch envB "q" 2 1 [] [] =
      Except.ok
        { learnings := jsSetDedup ([] ++ ["L1"]),
          visitedUrls := jsSetDedup ([] ++ compactStr
            (([⟨some "u1", some "m"⟩] : List SearchItem).map (fun item => item.url))),
          queries := [⟨"sq", "goal"⟩] } :=
  (deepResearch_budget_derivation envB "q" 2 [] [] [⟨"sq", "goal"⟩]
      ⟨"sq", "goal"⟩ ⟨[⟨some "u1", some "m"⟩]⟩ ⟨["L1"], ["F1"]⟩
      rfl rfl rfl rfl).2.1 1 rfl

/-- C8: with a pinned successful branch, a call at depth 0 still performs
the full expansion, retrieval and distillation pass (its result carries
the distilled learnings and the retrieved URLs); every depth whose
decrement is 0 behaves the same, and recursion happens exactly when
`depth - 1 > 0`. -/
theorem deepResearch_depth_zero_single_pass (env : Env) (query : String)
    (breadth : Nat) (learnings visitedUrls : List String)
    (raw : List SerpQuery) (sq : SerpQuery) (resp : SearchResponse)
    (out : DistillOutput)
    (hg : env.genQueries query breadth learnings = Except.ok raw)
    (ht : raw.take breadth = [sq])
    (hs : env.search sq.query = Except.ok resp)
    (hd : env.distill sq.query resp (newBreadth breadth) = Except.ok out) :
    (deepResearch env query breadth 0 learnings visitedUrls =
      Except.ok
        { learnings := jsSetDedup (learnings ++ out.learnings),
          visitedUrls := jsSetDedup (visitedUrls ++
            compactStr (resp.data.map (fun item => item.url))),
          queries := [sq] }) ∧
    (∀ depth, ¬ newDepth depth > 0 →
      deepResearch env query breadth depth learnings visitedUrls =
        deepResearch env query breadth 0 learnings visitedUrls) ∧
    (∀ depth, newDepth depth > 0 →
      deepResearch env query breadth depth learnings visitedUrls =
        Except.ok
          { learnings := jsSetDedup (recover (deepResearch env
              (nextQuery sq out) (newBreadth breadth) (newDepth depth)
              (learnings ++ out.learnings)
              (visitedUrls ++ compactStr
                (resp.data.map (fun item => item.url))))).learnings,
            visitedUrls := jsSetDedup (recover (deepResearch env
              (nextQuery sq out) (newBreadth breadth) (newDepth depth)
              (learnings ++ out.learnings)
              (visitedUrls ++ compactStr
                (resp.data.map (fun item => item.url))))).visitedUrls,
            queries := [sq] }) := by
  have leaf : ∀ depth, newDepth depth = 0 →
      deepResearch env query breadth depth learnings visitedUrls =
        Except.ok
          { learnings := jsSetDedup (learnings ++ out.learnings),
            visitedUrls := jsSetDedup (visitedUrls ++
              compactStr (resp.data.map (fun item => item.url))),
            queries := [sq] } := by
    intro depth hdep
    rw [deepResearch_unfold env query breadth depth learnings visitedUrls
      raw hg, ht]
    simp [deepBranch, hs, hd, hdep, recover]
  refine ⟨leaf 0 rfl, ?_, ?_⟩
  · intro depth hdep
    rw [leaf depth (by unfold newDepth at hdep ⊢; omega), leaf 0 rfl]
  · intro depth hdep
    rw [deepResearch_unfold env query breadth depth learnings visitedUrls
      raw hg, ht]
    simp only [List.map_cons, List.map_nil, List.flatMap_cons,
      List.flatMap_nil, List.append_nil, deepBranch, hs, hd, dif_pos hdep]

/-- Witness for C8: in `envB` the call at breadth 1, depth 0 returns the
distilled learnings and retrieved URL of its single pass. -/
theorem deepResearch_depth_zero_single_pass_witness :
    deepResearch envB "q" 1 0 [] [] =
      Except.ok
        { learnings := jsSetDedup ([] ++ ["L1"]),
          visitedUrls := jsSetDedup ([] ++ compactStr
            (([⟨some "u1", some "m"⟩] : List SearchItem).map (fun item => item.url))),
          queries := [⟨"sq", "goal"⟩] } :=
  (deepResearch_depth_zero_single_pass envB "q" 1 [] [] [⟨"sq", "goal"⟩]
      ⟨"sq", "goal"⟩ ⟨[⟨some "u1", some "m"⟩]⟩ ⟨["L1"], ["F1"]⟩
      rfl rfl rfl rfl).1

/-- Counterexample to C2: in `envC2` retrieval succeeds and the
Distillation step raises a generation error, yet `deepResearch` does not
propagate it — the branch is converted to the empty partial result and
the call returns `ok`. -/
theorem distillation_error_not_propagated_counterexample :
    envC2.distill "sq" ⟨[⟨some "u", some "m"⟩]⟩ (newBreadth 1) =
      Except.error (Err.generation "boom") ∧
    deepResearch envC2 "q" 1 0 [] [] =
      Except.ok { learnings := [], visitedUrls := [],
                  queries := [⟨"sq", "g"⟩] } := by
  refine ⟨rfl, ?_⟩
  simp [deepResearch, envC2, newBreadth, newDepth, recover, jsSetDedup]

/-- C2 amended: a GenerationError raised by Query Expansion propagates
unrecovered to the caller of the level, but a GenerationError raised by
the Distillation step occurs inside the per-branch try and is caught at
the branch boundary, converted into the empty partial result exactly
like a retrieval failure. -/
theorem generation_error_propagation (env : Env) (query : String)
    (breadth depth : Nat) (learnings visitedUrls : List String) :
    (∀ e, env.genQueries query breadth learnings = Except.error e →
      deepResearch env query breadth depth learnings visitedUrls =
        Except.error e) ∧
    (∀ raw sq resp e,
      env.genQueries query breadth learnings = Except.ok raw →
      raw.take breadth = [sq] →
      env.search sq.query = Except.ok resp →
      env.distill sq.query resp (newBreadth breadth) = Except.error e →
      deepResearch env query breadth depth learnings visitedUrls =
        Except.ok { learnings := [], visitedUrls := [], queries := [sq] }) := by
  constructor
  · intro e hg
    rw [deepResearch, hg]
  · intro raw sq resp e hg ht hs hd
    rw [deepResearch_unfold env query breadth depth learnings visitedUrls
      raw hg, ht]
    simp [deepBranch, hs, hd, recover, jsSetDedup]

/-- Witness for the amended C2: in `envC2` at depth 3 the distillation
failure is contained and the level returns the empty partial result. -/
theorem generation_error_propagation_witness :
    deepResearch envC2 "q" 1 3 [] [] =
      Except.ok { learnings := [], visitedUrls := [],
                  queries := [⟨"sq", "g"⟩] } :=
  (generation_error_propagation envC2 "q" 1 3 [] []).2
    [⟨"sq", "g"⟩] ⟨"sq", "g"⟩ ⟨[⟨some "u", some "m"⟩]⟩
    (Err.generation "boom") rfl rfl rfl rfl

/-- Counterexample to C7: `envD1` and `envD2` differ only in the URL the
search service returns, so the Orchestrator's `visitedUrls` differ, yet
`refineReport` produces the identical revised report — the visitedUrls
returned by the embedded `deepResearch` run are discarded (only logged),
not retained in producing the revised report. -/
theorem refineReport_discards_urls_counterexample :
    deepResearch envD1 (combinedQuery "iq" "CRIT" ["Q1"]) 1 1 [] [] =
      Except.ok { learnings := ["L1"], visitedUrls := ["URL1"],
                  queries := [⟨"sq", "g"⟩] } ∧
    deepResearch envD2 (combinedQuery "iq" "CRIT" ["Q1"]) 1 1 [] [] =
      Except.ok { learnings := ["L1"], visitedUrls := ["URL2"],
                  queries := [⟨"sq", "g"⟩] } ∧
    refineReport envD1 "rep" "iq" 1 1 = Except.ok "L1" ∧
    refineReport envD2 "rep" "iq" 1 1 = Except.ok "L1" := by
  refine ⟨?_, ?_, ?_, ?_⟩ <;>
  · simp [refineReport, deepResearch, envD1, envD2, newBreadth, newDepth,
      compactStr, jsSetDedup, insertUnique, recover]
    try rfl

/-- C7 amended: each refinement iteration invokes the Orchestrator on the
combined critique-plus-questions query with the given breadth and depth
and ignores its `queries` field; the revised report is produced from the
original report and the Orchestrator's `learnings` only, while the
Orchestrator's `visitedUrls` are merely logged and do not influence the
revised report. -/
theorem refineReport_uses_learnings_only (env : Env)
    (report initialQuery : String) (breadth depth : Nat)
    (criticism : String) (rawQuestions : List String)
    (res : ResearchResult) (revised : String)
    (hc : env.genCriticism report = Except.ok criticism)
    (hq : env.genQuestions criticism = Except.ok rawQuestions)
    (hr : deepResearch env
      (combinedQuery initialQuery criticism (rawQuestions.take breadth))
      breadth depth [] [] = Except.ok res)
    (hv : env.reviseReport report res.learnings = Except.ok revised) :
    refineReport env report initialQuery breadth depth =
      Except.ok revised := by
  simp only [refineReport, hc, hq, hr, hv]

/-- Witness for the amended C7: in `envD1` the refinement iteration
returns the report revised from the learnings alone. -/
theorem refineReport_uses_learnings_only_witness :
    refineReport envD1 "rep" "iq" 1 1 = Except.ok "L1" :=
  refineReport_uses_learnings_only envD1 "rep" "iq" 1 1 "CRIT" ["Q1"]
    { learnings := ["L1"], visitedUrls := ["URL1"], queries := [⟨"sq", "g"⟩] }
    "L1" rfl rfl
    (by simp [deepResearch, envD1, newBreadth, newDepth, compactStr,
      jsSetDedup, insertUnique, recover])
    rfl

/-- C5, evaluating the code's actual behavior: `writeFinalReport` returns
a bare string — the (possibly refined) report text plus the Sources
appendix — and no trail of intermediate reports; with
`refinementIterates = 0` the draft passes through unchanged, and with
`refinementIterates = 2` only the final refined text is returned. -/
theorem writeFinalReport_returns_bare_string :
    (writeFinalReport envE "p" ["l1"] ["u1", "u2"] 0 =
      Except.ok ("DRAFT" ++ urlsSection ["u1", "u2"])) ∧
    (writeFinalReport envE "p" ["l1"] ["u1"] 2 =
      Except.ok ("REV" ++ urlsSection ["u1"])) := by
  constructor
  · rfl
  · simp [writeFinalReport, refineLoop, refineReport, deepResearch, envE,
      trimPrompt, newBreadth, newDepth, jsSetDedup, recover]

/-- C6: when every attempt fails, the retry wrapper waits before the
first attempt, the backoff waits between consecutive retries start at
`INITIAL_BACKOFF` and strictly double, there are exactly
`MAX_RETRIES - 1` of them, and the call then raises the last error. -/
theorem retry_backoff_doubles (attemptR : Nat → Except String SearchResponse)
    (errs : Nat → String)
    (hfail : ∀ n, n < MAX_RETRIES → attemptR n = Except.error (errs n)) :
    (firecrawlSearchWithRetry attemptR).2 =
      Except.error (errs (MAX_RETRIES - 1)) ∧
    backoffDelays (firecrawlSearchWithRetry attemptR).1 =
      (List.range (MAX_RETRIES - 1)).map (fun k => INITIAL_BACKOFF * 2 ^ k) ∧
    (backoffDelays (firecrawlSearchWithRetry attemptR).1).length =
      MAX_RETRIES - 1 ∧
    (firecrawlSearchWithRetry attemptR).1.head? =
      some (Delay.preAttempt INITIAL_BACKOFF) := by
  have h0 := hfail 0 (by decide)
  have h1 := hfail 1 (by decide)
  have h2 := hfail 2 (by decide)
  have h3 := hfail 3 (by decide)
  have h4 := hfail 4 (by decide)
  simp [firecrawlSearchWithRetry, retryLoop, MAX_RETRIES, INITIAL_BACKOFF,
    h0, h1, h2, h3, h4, backoffDelays, List.range_succ]

/-- Witness for C6: with the always-failing attempt oracle `failR`, the
wrapper raises the error and the recorded backoff waits are exactly the
doubling sequence of length `MAX_RETRIES - 1`. -/
theorem retry_backoff_doubles_witness :
    (firecrawlSearchWithRetry failR).2 = Except.error "boom" ∧
    backoffDelays (firecrawlSearchWithRetry failR).1 =
      (List.range (MAX_RETRIES - 1)).map (fun k => INITIAL_BACKOFF * 2 ^ k) ∧
    (backoffDelays (firecrawlSearchWithRetry failR).1).length =
      MAX_RETRIES - 1 ∧
    (firecrawlSearchWithRetry failR).1.head? =
      some (Delay.preAttempt INITIAL_BACKOFF) :=
  retry_backoff_doubles failR (fun _ => "boom") (fun _ _ => rfl)

/-- Helper: if the current name collides and every suffixed name with
index between `i` and 99 collides, the collision loop aborts. -/
theorem collisionLoop_all_collide (ex : String → Bool) (orig : String) :
    ∀ j i name, i + j = 101 → 1 ≤ i →
      ex ("output/" ++ name ++ ".md") = true →
      (∀ k, i ≤ k → k ≤ 99 →
        ex ("output/" ++ (orig ++ "-" ++ toString k) ++ ".md") = true) →
      collisionLoop ex orig name i = Except.error () := by
  intro j
  induction j with
  | zero =>
    intro i name hij hi hname hall
    rw [collisionLoop]
    simp only [if_pos hname]
    rw [dif_pos (by omega : i + 1 > 100)]
  | succ j ih =>
    intro i name hij hi hname hall
    rw [collisionLoop]
    simp only [if_pos hname]
    by_cases hc : i + 1 > 100
    · rw [dif_pos hc]
    · rw [dif_neg hc]
      exact ih (i + 1) (orig ++ "-" ++ toString i) (by omega) (by omega)
        (hall i (by omega) (by omega))
        (fun k hk1 hk2 => hall k (by omega) hk2)

/-- Helper: if the current name collides, every suffixed name with index
below `k` collides and `k ≤ 99` does not, the loop picks suffix `k`. -/
theorem collisionLoop_first_free (ex : String → Bool) (orig : String) :
    ∀ j i name k, i + j = 101 → 1 ≤ i → i ≤ k → k ≤ 99 →
      ex ("output/" ++ name ++ ".md") = true →
      (∀ m, i ≤ m → m < k →
        ex ("output/" ++ (orig ++ "-" ++ toString m) ++ ".md") = true) →
      ex ("output/" ++ (orig ++ "-" ++ toString k) ++ ".md") = false →
      collisionLoop ex orig name i = Except.ok (orig ++ "-" ++ toString k) := by
  intro j
  induction j with
  | zero =>
    intro i name k hij hi hik hk hname hmid hfree
    omega
  | succ j ih =>
    intro i name k hij hi hik hk hname hmid hfree
    rw [collisionLoop]
    simp only [if_pos hname]
    rw [dif_neg (by omega : ¬ i + 1 > 100)]
    by_cases hik' : i = k
    · subst hik'
      rw [collisionLoop, if_neg (by simp [hfree])]
    · exact ih (i + 1) (orig ++ "-" ++ toString i) k (by omega) (by omega)
        (by omega) hk (hmid i (le_refl i) (by omega))
        (fun m hm1 hm2 => hmid m (by omega) hm2) hfree

/-- C9: with the initial name and the suffixed names 1..99 all
colliding, saving aborts fatally after logging the composed report with
exit code 1; when some suffix `k ≤ 99` is the first free name it is
used to write the file; and a free initial name is written directly. -/
theorem saveReport_collision_cap (ex : String → Bool)
    (original report metadata : String) :
    (ex ("output/" ++ original ++ ".md") = true →
      (∀ k, 1 ≤ k → k ≤ 99 →
        ex ("output/" ++ (original ++ "-" ++ toString k) ++ ".md") = true) →
      saveReport ex original report metadata =
        SaveOutcome.fatalExit (report ++ metadata) 1) ∧
    (∀ k, 1 ≤ k → k ≤ 99 →
      ex ("output/" ++ original ++ ".md") = true →
      (∀ m, 1 ≤ m → m < k →
        ex ("output/" ++ (original ++ "-" ++ toString m) ++ ".md") = true) →
      ex ("output/" ++ (original ++ "-" ++ toString k) ++ ".md") = false →
      saveReport ex original report metadata =
        SaveOutcome.written (original ++ "-" ++ toString k)
          (report ++ metadata)) ∧
    (ex ("output/" ++ original ++ ".md") = false →
      saveReport ex original report metadata =
        SaveOutcome.written original (report ++ metadata)) := by
  refine ⟨?_, ?_, ?_⟩
  · intro h0 hall
    unfold saveReport
    rw [collisionLoop_all_collide ex original 100 1 original (by omega)
      (by omega) h0 hall]
  · intro k hk1 hk2 h0 hmid hfree
    unfold saveReport
    rw [collisionLoop_first_free ex original 100 1 original k (by omega)
      (by omega) hk1 hk2 h0 hmid hfree]
  · intro h0
    unfold saveReport
    rw [collisionLoop, if_neg (by simp [h0])]

/-- Witness for C9: with only `output/report.md` existing, the report is
written under the first suffixed name `report-1`. -/
theorem saveReport_collision_cap_witness :
    saveReport exW "report" "R" "M" =
      SaveOutcome.written ("report" ++ "-" ++ toString 1) ("R" ++ "M") :=
  (saveReport_collision_cap exW "report" "R" "M").2.1 1 (by decide)
    (by decide) (by decide)
    (fun m h1 h2 => absurd h2 (by omega))
    (by decide)
